import Mathlib

/-!
Verification of the ercot-scraper ingestion core.

This file shallowly embeds the parts of the repository that the claims
touch:

* `src/sqlite_archive.py`  — the SQLite archive writers (`write_rtm_lmp_api`,
  `write_rtm_lmp_cdr`, `write_dam_lmp`, `write_rtm_lmp_raw`,
  `write_dam_lmp_raw`).  An `INSERT OR REPLACE` table with primary key
  `(time, settlement_point)` is modelled as an association list with
  in-place replacement; SQL tables are unordered, so row contents are
  compared through `lookup` and row count through `List.length`.
* `src/influxdb_writer.py` — the InfluxDB mirror writers
  (`write_rtm_lmp_data`, `write_dam_lmp_data`).  An InfluxDB measurement
  is keyed by (time, tag set); writing a point with an existing key
  overwrites the fields, so the same upsert model applies.
* `src/ercot_client.py`    — the retry loop of `make_api_call`.
* `src/scraper_rtm_lmp.py`, `src/scraper_dam_lmp.py`,
  `src/scraper_rtm_lmp_realtime.py` — the orchestrators.

Python dictionary values are modelled by `PyVal`; Python `datetime`
objects by `DT`.  Numeric values are modelled by `Rat` (the source only
stores and compares parsed decimal literals, never does float
arithmetic on them).
-/

/-- A Python `datetime`: calendar fields plus an optional fixed UTC
offset in minutes (`tz = Option.none` models a naive datetime). -/
structure DT where
  year : Nat
  month : Nat
  day : Nat
  hour : Nat
  minute : Nat
  second : Nat
  usec : Nat
  tz : Option Int
deriving DecidableEq, Repr

/-- A Python value as it occurs in the raw provider records: `None`,
a string, a number (`int`/`float`, modelled by `Rat`), or a `datetime`. -/
inductive PyVal where
  | none
  | str (s : String)
  | num (q : Rat)
  | dt (d : DT)
deriving DecidableEq, Repr

/-- A raw provider record: a Python dict from field names to values. -/
def Rec : Type := List (String × PyVal)

/-- `record.get(k)` — first binding wins, default `None`. -/
def Rec.get (r : Rec) (k : String) : PyVal :=
  match r.find? (fun p => p.1 = k) with
  | Option.none => PyVal.none
  | Option.some p => p.2

/-- `record.get(k, default)`. -/
def Rec.getD (r : Rec) (k : String) (d : PyVal) : PyVal :=
  match r.find? (fun p => p.1 = k) with
  | Option.none => d
  | Option.some p => p.2

/-- Python truthiness of a `PyVal` (`bool(v)`). -/
def PyVal.truthy : PyVal → Bool
  | PyVal.none => false
  | PyVal.str s => s ≠ ""
  | PyVal.num q => q ≠ 0
  | PyVal.dt _ => true

/-- Python `a or b`: `a` if truthy, else `b`. -/
def pyOr (a b : PyVal) : PyVal := if a.truthy then a else b

/-! ### Python `datetime` operations used by the source -/

/-- Gregorian leap year. -/
def isLeap (y : Nat) : Bool := y % 4 == 0 && (y % 100 != 0 || y % 400 == 0)

/-- Days in a month. -/
def daysInMonth (y m : Nat) : Nat :=
  if m = 2 then (if isLeap y then 29 else 28)
  else if m = 4 ∨ m = 6 ∨ m = 9 ∨ m = 11 then 30
  else 31

/-- The day after, with month/year carry (used by `timedelta` addition). -/
def DT.nextDay (d : DT) : DT :=
  if d.day < daysInMonth d.year d.month then { d with day := d.day + 1 }
  else if d.month < 12 then { d with month := d.month + 1, day := 1 }
  else { d with year := d.year + 1, month := 1, day := 1 }

/-- The day before, with month/year borrow. -/
def DT.prevDay (d : DT) : DT :=
  if 1 < d.day then { d with day := d.day - 1 }
  else if 1 < d.month then
    { d with month := d.month - 1, day := daysInMonth d.year (d.month - 1) }
  else { d with year := d.year - 1, month := 12, day := 31 }

/-- Add `n` whole days (`timedelta(days=n)`). -/
def DT.addDays (d : DT) : Nat → DT
  | 0 => d
  | n + 1 => (d.nextDay).addDays n

/-- Subtract `n` whole days (`timedelta(days=-n)`; used for the 7-day
default lookback `datetime.utcnow() - timedelta(days=7)`). -/
def DT.subDays (d : DT) : Nat → DT
  | 0 => d
  | n + 1 => (d.prevDay).subDays n

/-- Add `k` hours with day rollover (`d + timedelta(hours=k)`);
`timedelta` addition keeps the `tzinfo` and shifts the clock fields. -/
def DT.addHours (d : DT) (k : Nat) : DT :=
  ({ d with hour := (d.hour + k) % 24 } : DT).addDays ((d.hour + k) / 24)

/-- `timestamp.replace(second=0, microsecond=0)` followed by
`timestamp.replace(minute=(timestamp.minute // 5) * 5)` — the 5-minute
floor in `write_rtm_lmp_raw`. -/
def DT.floor5 (d : DT) : DT :=
  { d with minute := (d.minute / 5) * 5, second := 0, usec := 0 }

/-- `ts.replace(tzinfo=None)` — store as naive. -/
def DT.stripTz (d : DT) : DT := { d with tz := Option.none }

/-- Lexicographic `<` on the clock fields, as Python compares two naive
datetimes (the source only compares naive-with-naive or UTC-with-UTC,
where the offsets agree, so the clock-field comparison is faithful). -/
def dtLt (a b : DT) : Bool :=
  if a.year ≠ b.year then a.year < b.year
  else if a.month ≠ b.month then a.month < b.month
  else if a.day ≠ b.day then a.day < b.day
  else if a.hour ≠ b.hour then a.hour < b.hour
  else if a.minute ≠ b.minute then a.minute < b.minute
  else if a.second ≠ b.second then a.second < b.second
  else a.usec < b.usec

/-- `a <= b` on datetimes (total lexicographic order). -/
def dtLe (a b : DT) : Bool := !(dtLt b a)

/-! ### ISO-8601 parsing and rendering (`datetime.fromisoformat`,
`datetime.isoformat`) -/

/-- Decimal digit value. -/
def digitVal (c : Char) : Option Nat :=
  if c.isDigit then Option.some (c.toNat - 48) else Option.none

/-- Consume exactly `n` decimal digits. -/
def takeDigits : Nat → Nat → List Char → Option (Nat × List Char)
  | 0, acc, cs => Option.some (acc, cs)
  | n + 1, acc, cs =>
    match cs with
    | [] => Option.none
    | c :: cs' =>
      match digitVal c with
      | Option.none => Option.none
      | Option.some d => takeDigits n (acc * 10 + d) cs'

/-- Consume one expected character. -/
def expectChar (c : Char) : List Char → Option (List Char)
  | [] => Option.none
  | c' :: cs => if c = c' then Option.some cs else Option.none

/-- Parse the `±HH:MM` fixed-offset suffix (empty input means naive). -/
def parseOffset : List Char → Option (Option Int)
  | [] => Option.some Option.none
  | c :: cs =>
    if c = '+' ∨ c = '-' then
      match takeDigits 2 0 cs with
      | Option.none => Option.none
      | Option.some (oh, cs₁) =>
        match expectChar ':' cs₁ with
        | Option.none => Option.none
        | Option.some cs₂ =>
          match takeDigits 2 0 cs₂ with
          | Option.none => Option.none
          | Option.some (om, cs₃) =>
            if cs₃ = [] ∧ oh < 24 ∧ om < 60 then
              let mins : Int := Int.ofNat (oh * 60 + om)
              Option.some (Option.some (if c = '-' then -mins else mins))
            else Option.none
    else Option.none

/-- Parse the fractional-second part `.f…f` (1–6 digits, scaled to
microseconds), possibly followed by an offset. -/
def parseFrac (cs : List Char) : Option (Nat × List Char) :=
  let digs := cs.takeWhile Char.isDigit
  let rest := cs.dropWhile Char.isDigit
  if 1 ≤ digs.length ∧ digs.length ≤ 6 then
    match takeDigits digs.length 0 digs with
    | Option.none => Option.none
    | Option.some (v, _) => Option.some (v * 10 ^ (6 - digs.length), rest)
  else Option.none

/-- Parse the time-of-day part `HH:MM[:SS[.ffffff]][±HH:MM]`. -/
def parseTimePart (y mo dy : Nat) (cs : List Char) : Option DT :=
  match takeDigits 2 0 cs with
  | Option.none => Option.none
  | Option.some (h, cs₁) =>
    match expectChar ':' cs₁ with
    | Option.none => Option.none
    | Option.some cs₂ =>
      match takeDigits 2 0 cs₂ with
      | Option.none => Option.none
      | Option.some (mi, cs₃) =>
        let secPart : Option (Nat × Nat × List Char) :=
          match expectChar ':' cs₃ with
          | Option.none => Option.some (0, 0, cs₃)
          | Option.some cs₄ =>
            match takeDigits 2 0 cs₄ with
            | Option.none => Option.none
            | Option.some (ss, cs₅) =>
              match expectChar '.' cs₅ with
              | Option.none => Option.some (ss, 0, cs₅)
              | Option.some cs₆ =>
                match parseFrac cs₆ with
                | Option.none => Option.none
                | Option.some (us, cs₇) => Option.some (ss, us, cs₇)
        match secPart with
        | Option.none => Option.none
        | Option.some (ss, us, cs₈) =>
          match parseOffset cs₈ with
          | Option.none => Option.none
          | Option.some tz =>
            if h < 24 ∧ mi < 60 ∧ ss < 60 then
              Option.some ⟨y, mo, dy, h, mi, ss, us, tz⟩
            else Option.none

/-- `datetime.fromisoformat`: `YYYY-MM-DD` (midnight, naive) or
`YYYY-MM-DD<sep>HH:MM[:SS[.ffffff]][±HH:MM]` (any single separator
character, as in CPython). Returns `none` where Python raises. -/
def fromisoformat (s : String) : Option DT :=
  match takeDigits 4 0 s.toList with
  | Option.none => Option.none
  | Option.some (y, cs₁) =>
    match expectChar '-' cs₁ with
    | Option.none => Option.none
    | Option.some cs₂ =>
      match takeDigits 2 0 cs₂ with
      | Option.none => Option.none
      | Option.some (mo, cs₃) =>
        match expectChar '-' cs₃ with
        | Option.none => Option.none
        | Option.some cs₄ =>
          match takeDigits 2 0 cs₄ with
          | Option.none => Option.none
          | Option.some (dy, cs₅) =>
            if 1 ≤ mo ∧ mo ≤ 12 ∧ 1 ≤ dy ∧ dy ≤ daysInMonth y mo then
              match cs₅ with
              | [] => Option.some ⟨y, mo, dy, 0, 0, 0, 0, Option.none⟩
              | _sep :: rest => parseTimePart y mo dy rest
            else Option.none

/-- Zero-padded decimal rendering. -/
def padNum (width n : Nat) : String :=
  let s := toString n
  String.mk (List.replicate (width - s.length) '0') ++ s

/-- `datetime.isoformat()`: `YYYY-MM-DDTHH:MM:SS[.ffffff][±HH:MM]`
(the microsecond part is omitted when zero, the offset when naive). -/
def DT.iso (d : DT) : String :=
  padNum 4 d.year ++ "-" ++ padNum 2 d.month ++ "-" ++ padNum 2 d.day ++ "T" ++
  padNum 2 d.hour ++ ":" ++ padNum 2 d.minute ++ ":" ++ padNum 2 d.second ++
  (if d.usec = 0 then "" else "." ++ padNum 6 d.usec) ++
  (match d.tz with
   | Option.none => ""
   | Option.some off =>
     (if off < 0 then "-" else "+") ++
     padNum 2 (off.natAbs / 60) ++ ":" ++ padNum 2 (off.natAbs % 60))

/-- Substitute every occurrence of a character by a string (the shape
of every `str.replace` call in the source: the pattern is always a
single character). -/
def replaceCharBy (target : Char) (repl : List Char) : List Char → List Char
  | [] => []
  | c :: rest =>
    if c = target then repl ++ replaceCharBy target repl rest
    else c :: replaceCharBy target repl rest

/-- `timestamp_str.replace("Z", "+00:00")`. -/
def replaceZ (s : String) : String :=
  String.mk (replaceCharBy 'Z' ['+', '0', '0', ':', '0', '0'] s.toList)

/-! ### Python numeric conversions (`float(...)`, `int(...)`) -/

/-- Value of a digit string. -/
def digitsVal (ds : List Char) : Nat := ds.foldl (fun a c => a * 10 + (c.toNat - 48)) 0

/-- `float(s)` on a plain decimal literal `[+|-]ddd[.ddd]` / `[+|-].ddd`
(the only string shapes the feed carries; returns `none` where Python
raises `ValueError`). -/
def parseFloatStr (s : String) : Option Rat :=
  let (neg, cs) :=
    match s.toList with
    | '-' :: r => (true, r)
    | '+' :: r => (false, r)
    | cs => (false, cs)
  let ip := cs.takeWhile Char.isDigit
  let rest₁ := cs.dropWhile Char.isDigit
  let body : Option Rat :=
    match rest₁ with
    | [] => if ip ≠ [] then Option.some (digitsVal ip : Rat) else Option.none
    | '.' :: r₂ =>
      let fp := r₂.takeWhile Char.isDigit
      let rest₂ := r₂.dropWhile Char.isDigit
      if rest₂ = [] ∧ (ip ≠ [] ∨ fp ≠ []) then
        Option.some ((digitsVal ip : Rat) + (digitsVal fp : Rat) / (10 ^ fp.length : Nat))
      else Option.none
    | _ => Option.none
  body.map (fun q => if neg then -q else q)

/-- `int(s)`: `[+|-]ddd` (returns `none` where Python raises). -/
def parseIntStr (s : String) : Option Int :=
  let (neg, cs) :=
    match s.toList with
    | '-' :: r => (true, r)
    | '+' :: r => (false, r)
    | cs => (false, cs)
  if cs ≠ [] ∧ cs.all Char.isDigit then
    Option.some (if neg then -(digitsVal cs : Int) else (digitsVal cs : Int))
  else Option.none

/-- `float(v)` on a `PyVal`; `None` and `datetime` raise `TypeError`
(modelled as `none`, which the writers turn into a skipped record). -/
def pyFloat : PyVal → Option Rat
  | PyVal.num q => Option.some q
  | PyVal.str s => parseFloatStr s
  | PyVal.none => Option.none
  | PyVal.dt _ => Option.none

/-- `str(v)`.  `str(datetime)` is `isoformat(sep=" ")`.  The rendering
of a bare number (reached only when a record carries a numeric `time`
field) is deterministic, which is all the write-path semantics use. -/
def pyStr : PyVal → String
  | PyVal.none => "None"
  | PyVal.str s => s
  | PyVal.num q => toString q.num ++ (if q.den = 1 then "" else "/" ++ toString q.den)
  | PyVal.dt d => String.mk (replaceCharBy 'T' [' '] (d.iso).toList)

/-! ### The keyed upsert store

`INSERT OR REPLACE` into a table whose primary key is the first
component, and likewise an InfluxDB write of a point whose
(time, tag-set) key already exists, replace the non-key fields of the
existing row.  The store is modelled as an association list; `upsert`
replaces in place, `tlookup` is the row lookup, `List.length` the row
count. -/

/-- Replace the value at `k` in place, or append a new row. -/
def upsert {K V : Type} [DecidableEq K] (k : K) (v : V) : List (K × V) → List (K × V)
  | [] => [(k, v)]
  | (k', v') :: t => if k = k' then (k, v) :: t else (k', v') :: upsert k v t

/-- Row lookup by primary key. -/
def tlookup {K V : Type} [DecidableEq K] (k : K) : List (K × V) → Option V
  | [] => Option.none
  | (k', v) :: t => if k = k' then Option.some v else tlookup k t

/-- One writer call: each record is transformed by `f` (the loop body of
the Python writer); a record `f` sends to `none` is skipped (`continue`),
otherwise its row is upserted. -/
def writeBatch {R K V : Type} [DecidableEq K] (f : R → Option (K × V))
    (t : List (K × V)) (rs : List R) : List (K × V) :=
  rs.foldl (fun acc r =>
    match f r with
    | Option.none => acc
    | Option.some (k, v) => upsert k v acc) t

/-- The number of records a writer call reports as written
(`count` in the Python writers: incremented exactly on the non-skipped
records). -/
def writeCount {R K V : Type} (f : R → Option (K × V)) (rs : List R) : Nat :=
  rs.countP (fun r => (f r).isSome)

/-- First-some choice on options (`a` overrides `b`). -/
def oor {V : Type} : Option V → Option V → Option V
  | Option.some v, _ => Option.some v
  | Option.none, b => b

/-! ### `sqlite_archive.py` — per-record transforms of the write loops

Each `write_*` method iterates its record list inside `try/except`:
a record whose transform raises (modelled by `Option.none`) is skipped
with `continue` and the loop moves on; otherwise one
`INSERT OR REPLACE` runs and `count` is incremented.  The table state is
`writeBatch` of the per-record transform; the returned count is
`writeCount`. -/

/-- `record.get("SCEDTimestamp") or record.get("scedTimestamp")`. -/
def rtmTsStr (r : Rec) : PyVal := pyOr (r.get "SCEDTimestamp") (r.get "scedTimestamp")

/-- The RTM timestamp parse: skip when the field is falsy
(`if not timestamp_str: continue`); `.replace("Z", "+00:00")` then
`datetime.fromisoformat` (raising on a non-string or unparsable value,
which the `except` turns into a skip). -/
def rtmTs (r : Rec) : Option DT :=
  match rtmTsStr r with
  | PyVal.str s => if s = "" then Option.none else fromisoformat (replaceZ s)
  | _ => Option.none

/-- `record.get("X") or record.get("x") or ""` — the settlement-point
style fallback chain. -/
def orChainStr (r : Rec) (k₁ k₂ : String) : PyVal :=
  pyOr (pyOr (r.get k₁) (r.get k₂)) (PyVal.str "")

/-- `record.get("X") or record.get("x") or 0` — the numeric fallback
chain. -/
def orChainNum (r : Rec) (k₁ k₂ : String) : PyVal :=
  pyOr (pyOr (r.get k₁) (r.get k₂)) (PyVal.num 0)

/-- `float(v or 0)`. -/
def floatOr0 (v : PyVal) : Option Rat := pyFloat (pyOr v (PyVal.num 0))

/-- Loop body of `write_rtm_lmp_raw`: parse and floor the timestamp,
read both casings of each field, store at key
`(timestamp.isoformat(), settlement_point)`. -/
def rtmRawToRow (r : Rec) : Option ((String × PyVal) × (Rat × Rat × Rat × Rat)) :=
  match rtmTs r with
  | Option.none => Option.none
  | Option.some ts =>
    let sp := orChainStr r "SettlementPoint" "settlementPoint"
    match floatOr0 (orChainNum r "LMP" "lmp"),
        floatOr0 (orChainNum r "EnergyComponent" "energyComponent"),
        floatOr0 (orChainNum r "CongestionComponent" "congestionComponent"),
        floatOr0 (orChainNum r "LossComponent" "lossComponent") with
    | Option.some l, Option.some e, Option.some c, Option.some lo =>
      Option.some ((DT.iso ts.floor5, sp), (l, e, c, lo))
    | _, _, _, _ => Option.none

/-- The `time` column value in `write_rtm_lmp_api` / `write_rtm_lmp_cdr`
/ `write_dam_lmp`: a string field is parsed (`fromisoformat` after the
`Z` replacement, raising → skip); the bound value is
`time_val.isoformat()` when the value is a datetime, else
`str(time_val)`. -/
def timeKeyCol (r : Rec) : Option String :=
  match r.get "time" with
  | PyVal.str s => (fromisoformat (replaceZ s)).map DT.iso
  | PyVal.dt d => Option.some d.iso
  | v => Option.some (pyStr v)

/-- Loop body of `write_rtm_lmp_api` (already-transformed records with
lower-case keys; missing fields default per `record.get(k, default)`). -/
def rtmApiToRow (r : Rec) : Option ((String × PyVal) × (Rat × Rat × Rat × Rat)) :=
  match timeKeyCol r with
  | Option.none => Option.none
  | Option.some tk =>
    match floatOr0 (r.getD "lmp" (PyVal.num 0)),
        floatOr0 (r.getD "energy_component" (PyVal.num 0)),
        floatOr0 (r.getD "congestion_component" (PyVal.num 0)),
        floatOr0 (r.getD "loss_component" (PyVal.num 0)) with
    | Option.some l, Option.some e, Option.some c, Option.some lo =>
      Option.some ((tk, r.getD "settlement_point" (PyVal.str "")), (l, e, c, lo))
    | _, _, _, _ => Option.none

/-- Loop body of `write_rtm_lmp_cdr`. -/
def rtmCdrToRow (r : Rec) : Option ((String × PyVal) × Rat) :=
  match timeKeyCol r with
  | Option.none => Option.none
  | Option.some tk =>
    match floatOr0 (r.getD "lmp" (PyVal.num 0)) with
    | Option.some l =>
      Option.some ((tk, r.getD "settlement_point" (PyVal.str "")), l)
    | Option.none => Option.none

/-- Loop body of `write_dam_lmp` (non-key column `settlement_point_type`
is stored alongside `lmp`). -/
def damToRow (r : Rec) : Option ((String × PyVal) × (PyVal × Rat)) :=
  match timeKeyCol r with
  | Option.none => Option.none
  | Option.some tk =>
    match floatOr0 (r.getD "lmp" (PyVal.num 0)) with
    | Option.some l =>
      Option.some ((tk, r.getD "settlement_point" (PyVal.str "")),
        (r.getD "settlement_point_type" (PyVal.str ""), l))
    | Option.none => Option.none

/-- `record.get("DeliveryDate") or record.get("deliveryDate")`. -/
def damDelivery (r : Rec) : PyVal := pyOr (r.get "DeliveryDate") (r.get "deliveryDate")

/-- `record.get("HourEnding") or record.get("hourEnding")`. -/
def damHourEnding (r : Rec) : PyVal := pyOr (r.get "HourEnding") (r.get "hourEnding")

/-- The local (Central-Time) instant built by both day-ahead writers:
skip when either field is falsy; `hour = int(hour_ending.split(":")[0])`
(raising → skip on a non-string or non-integer); then
`datetime.fromisoformat(delivery_date).replace(hour=hour - 1)`
(`replace` raising unless `0 <= hour - 1 <= 23`). -/
def damLocalTs (r : Rec) : Option DT :=
  if (damDelivery r).truthy ∧ (damHourEnding r).truthy then
    match damHourEnding r with
    | PyVal.str hs =>
      match parseIntStr (String.mk (hs.toList.takeWhile (fun c => c ≠ ':'))) with
      | Option.none => Option.none
      | Option.some hour =>
        match damDelivery r with
        | PyVal.str ds =>
          match fromisoformat ds with
          | Option.none => Option.none
          | Option.some loc =>
            if 0 ≤ hour - 1 ∧ hour - 1 ≤ 23 then
              Option.some { loc with hour := (hour - 1).toNat }
            else Option.none
        | _ => Option.none
    | _ => Option.none
  else Option.none

/-- Loop body of `write_dam_lmp_raw`: the Central-Time instant is
shifted to UTC by `+ timedelta(hours=6)` (CST = UTC-6) before storage. -/
def damRawToRow (r : Rec) : Option ((String × PyVal) × (PyVal × Rat)) :=
  match damLocalTs r with
  | Option.none => Option.none
  | Option.some loc =>
    let sp := orChainStr r "SettlementPoint" "settlementPoint"
    let spt := orChainStr r "SettlementPointType" "settlementPointType"
    match floatOr0 (orChainNum r "SettlementPointPrice" "settlementPointPrice") with
    | Option.some p => Option.some (((loc.addHours 6).iso, sp), (spt, p))
    | Option.none => Option.none

/-- `SQLiteArchive.write_rtm_lmp_raw`: resulting `rtm_lmp_api` table. -/
def write_rtm_lmp_raw (t : List ((String × PyVal) × (Rat × Rat × Rat × Rat)))
    (rs : List Rec) := writeBatch rtmRawToRow t rs

/-- `SQLiteArchive.write_rtm_lmp_api`: resulting `rtm_lmp_api` table. -/
def write_rtm_lmp_api (t : List ((String × PyVal) × (Rat × Rat × Rat × Rat)))
    (rs : List Rec) := writeBatch rtmApiToRow t rs

/-- `SQLiteArchive.write_rtm_lmp_cdr`: resulting `rtm_lmp_cdr` table. -/
def write_rtm_lmp_cdr (t : List ((String × PyVal) × Rat)) (rs : List Rec) :=
  writeBatch rtmCdrToRow t rs

/-- `SQLiteArchive.write_dam_lmp`: resulting `dam_lmp` table. -/
def write_dam_lmp (t : List ((String × PyVal) × (PyVal × Rat))) (rs : List Rec) :=
  writeBatch damToRow t rs

/-- `SQLiteArchive.write_dam_lmp_raw`: resulting `dam_lmp` table. -/
def write_dam_lmp_raw (t : List ((String × PyVal) × (PyVal × Rat))) (rs : List Rec) :=
  writeBatch damRawToRow t rs

/-! ### `influxdb_writer.py` — the mirror writers

An InfluxDB point is keyed by (time, tag set); the tags written are
`settlement_point` and `settlement_point_type`, so a mirror measurement
is an upsert store keyed by `(DT × PyVal × PyVal)`.  The rate-limit
batching of `_write_points_with_rate_limit` splits the point list but
writes it in order, so on the (modelled) success path the measurement
state is the same `writeBatch`. -/

/-- Loop body of `write_rtm_lmp_data`: same field chains as
`write_rtm_lmp_raw` but the parsed timestamp is used as the point time
unchanged — no 5-minute flooring on the mirror path. -/
def rtmMirrorToRow (r : Rec) : Option ((DT × PyVal × PyVal) × (Rat × Rat × Rat × Rat)) :=
  match rtmTs r with
  | Option.none => Option.none
  | Option.some ts =>
    let sp := orChainStr r "SettlementPoint" "settlementPoint"
    let spt := orChainStr r "SettlementPointType" "settlementPointType"
    match floatOr0 (orChainNum r "LMP" "lmp"),
        floatOr0 (orChainNum r "EnergyComponent" "energyComponent"),
        floatOr0 (orChainNum r "CongestionComponent" "congestionComponent"),
        floatOr0 (orChainNum r "LossComponent" "lossComponent") with
    | Option.some l, Option.some e, Option.some c, Option.some lo =>
      Option.some ((ts, sp, spt), (l, e, c, lo))
    | _, _, _, _ => Option.none

/-- `write_rtm_lmp_data`'s `skipped` counter: incremented exactly when
the timestamp field chain is falsy (a record whose later transform
raises is dropped by the `except` without touching `skipped`). -/
def rtmMirrorSkipped (rs : List Rec) : Nat :=
  rs.countP (fun r => !(rtmTsStr r).truthy)

/-- Loop body of `write_dam_lmp_data`: same local instant as
`write_dam_lmp_raw` but used as the point time unchanged — no
`+ timedelta(hours=6)` UTC shift on the mirror path. -/
def damMirrorToRow (r : Rec) : Option ((DT × PyVal × PyVal) × Rat) :=
  match damLocalTs r with
  | Option.none => Option.none
  | Option.some loc =>
    let sp := orChainStr r "SettlementPoint" "settlementPoint"
    let spt := orChainStr r "SettlementPointType" "settlementPointType"
    match floatOr0 (orChainNum r "SettlementPointPrice" "settlementPointPrice") with
    | Option.some p => Option.some ((loc, sp, spt), p)
    | Option.none => Option.none

/-- `write_dam_lmp_data`'s `skipped` counter. -/
def damMirrorSkipped (rs : List Rec) : Nat :=
  rs.countP (fun r => !((damDelivery r).truthy && (damHourEnding r).truthy))

/-- `InfluxDBWriter.write_rtm_lmp_data`: resulting `rtm_lmp` measurement. -/
def write_rtm_lmp_data (t : List ((DT × PyVal × PyVal) × (Rat × Rat × Rat × Rat)))
    (rs : List Rec) := writeBatch rtmMirrorToRow t rs

/-- `InfluxDBWriter.write_dam_lmp_data`: resulting `dam_lmp` measurement. -/
def write_dam_lmp_data (t : List ((DT × PyVal × PyVal) × Rat)) (rs : List Rec) :=
  writeBatch damMirrorToRow t rs

/-! ### `ercot_client.py` — the `make_api_call` retry loop

`make_api_call` builds `headers` once (via `get_headers`, which refreshes
the token when absent or expired) and then loops `while retries <=
self.max_retries`, issuing `self.session.get(url, headers=headers, ...)`
each iteration.  The environment is modelled by `resp : Nat → Nat`, the
HTTP status of the i-th request; `tok` is the bearer token baked into
`headers` before the loop.  The trace records, per request, the token
presented, the seconds slept between attempts, and the client's stored
token after the call (`self.token`, set to `None` by the 401 branch and
never re-obtained inside the call, since `headers` is not rebuilt). -/

/-- `ErcotClient.DEFAULT_MAX_RETRIES`. -/
def DEFAULT_MAX_RETRIES : Nat := 3

/-- `ErcotClient.DEFAULT_INITIAL_DELAY_MS / 1000`. -/
def INITIAL_DELAY_SECONDS : Nat := 1000 / 1000

/-- How one `make_api_call` invocation ends. -/
inductive ApiOutcome where
  | success (reqIdx : Nat)
  | rateLimitExceeded
  | authFailed
  | requestError
deriving DecidableEq, Repr

/-- Observable trace of one `make_api_call` invocation. -/
structure ApiTrace where
  outcome : ApiOutcome
  requests : List String
  sleeps : List Nat
  tokenAfter : Option String
deriving DecidableEq, Repr

/-- The `while retries <= self.max_retries` loop.  `fuel` bounds the
iteration count (`maxRetries + 1` always suffices, since every continue
increments `retries` and re-checks it against the bound); the
fuel-exhausted case is the loop's trailing
`raise RuntimeError(f"API request failed after ...")`. -/
def apiLoop (resp : Nat → Nat) (maxRetries : Nat) (tok : String)
    (tokVar : Option String) (retries delay reqIdx : Nat)
    (reqs : List String) (sleeps : List Nat) : Nat → ApiTrace
  | 0 => ⟨ApiOutcome.requestError, reqs, sleeps, tokVar⟩
  | fuel + 1 =>
    if resp reqIdx = 429 then
      if retries + 1 ≤ maxRetries then
        apiLoop resp maxRetries tok tokVar (retries + 1) (delay * 2) (reqIdx + 1)
          (reqs ++ [tok]) (sleeps ++ [delay]) fuel
      else ⟨ApiOutcome.rateLimitExceeded, reqs ++ [tok], sleeps, tokVar⟩
    else if resp reqIdx = 401 then
      if retries + 1 ≤ maxRetries then
        apiLoop resp maxRetries tok Option.none (retries + 1) delay (reqIdx + 1)
          (reqs ++ [tok]) sleeps fuel
      else ⟨ApiOutcome.authFailed, reqs ++ [tok], sleeps, Option.none⟩
    else if resp reqIdx < 400 then
      ⟨ApiOutcome.success reqIdx, reqs ++ [tok], sleeps, tokVar⟩
    else
      if maxRetries ≤ retries then
        ⟨ApiOutcome.requestError, reqs ++ [tok], sleeps, tokVar⟩
      else
        apiLoop resp maxRetries tok tokVar (retries + 1) (delay * 2) (reqIdx + 1)
          (reqs ++ [tok]) (sleeps ++ [delay]) fuel

/-- `ErcotClient.make_api_call` with `self.max_retries = maxRetries`
and a fresh-enough stored token `tok`. -/
def make_api_call (resp : Nat → Nat) (maxRetries : Nat) (tok : String) : ApiTrace :=
  apiLoop resp maxRetries tok (Option.some tok) 0 INITIAL_DELAY_SECONDS 0 [] []
    (maxRetries + 1)

/-! ### `scraper_dam_lmp.py` — start-date resolution (claim C4) -/

/-- The auto-detect branch of `scraper_dam_lmp.main`: SQLite
`get_last_time("dam_lmp")`, else InfluxDB `get_last_timestamp("dam_lmp")`,
else `datetime.utcnow() - timedelta(days=7)`. -/
def damAutoStart (sqliteLast influxLast : Option DT) (now : DT) : DT :=
  match sqliteLast with
  | Option.some t => t
  | Option.none =>
    match influxLast with
    | Option.some t => t
    | Option.none => now.subDays 7

/-- Start-date resolution of `scraper_dam_lmp.main`: `if args.start_date:`
(Python truthiness, so an empty string falls through to auto-detect)
parses the flag with `datetime.fromisoformat` — a parse failure raises
into the outer `except` (modelled as `Except.error`), it does not fall
back to the other sources. -/
def resolveDamStart (argStart : Option String) (sqliteLast influxLast : Option DT)
    (now : DT) : Except Unit DT :=
  match argStart with
  | Option.some s =>
    if s = "" then Except.ok (damAutoStart sqliteLast influxLast now)
    else
      match fromisoformat s with
      | Option.some d => Except.ok d
      | Option.none => Except.error ()
  | Option.none => Except.ok (damAutoStart sqliteLast influxLast now)

/-! ### `scraper_rtm_lmp.py` — the RTM API orchestrator (claim C3) -/

/-- The settlement points mirrored to InfluxDB
(`INFLUXDB_SETTLEMENT_POINTS`). -/
def INFLUXDB_SETTLEMENT_POINTS : List String :=
  ["HB_BUSAVG", "HB_HOUSTON", "HB_HUBAVG", "HB_NORTH", "HB_PAN", "HB_SOUTH",
   "HB_WEST",
   "LZ_AEN", "LZ_CPS", "LZ_HOUSTON", "LZ_LCRA", "LZ_NORTH", "LZ_RAYBN",
   "LZ_SOUTH", "LZ_WEST"]

/-- Python `value in INFLUXDB_SETTLEMENT_POINTS` for a record field
value (a set of strings only ever contains string values). -/
def inAllowList (v : PyVal) : Bool :=
  match v with
  | PyVal.str s => INFLUXDB_SETTLEMENT_POINTS.contains s
  | _ => false

/-- The scrapers' mirror filter:
`(r.get("SettlementPoint") or r.get("settlementPoint", "")) in
INFLUXDB_SETTLEMENT_POINTS`. -/
def scraperFilter (r : Rec) : Bool :=
  inAllowList (pyOr (r.get "SettlementPoint") (r.getD "settlementPoint" (PyVal.str "")))

/-- The RTM scraper's own per-record timestamp read for checkpoint
tracking: parse `SCEDTimestamp`/`scedTimestamp`, strip the tzinfo
(`ts.replace(tzinfo=None)`); any parse error is swallowed (`except:
pass`). -/
def scraperTs (r : Rec) : Option DT :=
  match rtmTsStr r with
  | PyVal.str s =>
    if s = "" then Option.none else (fromisoformat (replaceZ s)).map DT.stripTz
  | _ => Option.none

/-- `latest_timestamp` update over one page:
`if latest_timestamp is None or ts > latest_timestamp`. -/
def pageMaxTs (latest : Option DT) (page : List Rec) : Option DT :=
  page.foldl (fun acc r =>
    match scraperTs r with
    | Option.none => acc
    | Option.some ts =>
      match acc with
      | Option.none => Option.some ts
      | Option.some l => if dtLt l ts then Option.some ts else Option.some l)
    latest

/-- Result of one `scraper_rtm_lmp.main` run: the checkpoint-file
content afterwards, the process exit code, and both sink states. -/
structure RtmRunResult where
  file : Option String
  exitCode : Int
  archive : List ((String × PyVal) × (Rat × Rat × Rat × Rat))
  mirror : List ((DT × PyVal × PyVal) × (Rat × Rat × Rat × Rat))
deriving Repr

/-- The page loop of `scraper_rtm_lmp.main`.  The fetched stream is a
list of pages, where `Except.error ()` marks the point at which the
generator (or a sink write) raises a fatal error: the exception
propagates to the outer `except`, which returns exit code 1 without
reaching `save_api_last_timestamp` — that call sits after the loop and
only runs when the stream is exhausted. -/
def rtmMainLoop (file0 : Option String) :
    List (Except Unit (List Rec)) → Option DT →
    List ((String × PyVal) × (Rat × Rat × Rat × Rat)) →
    List ((DT × PyVal × PyVal) × (Rat × Rat × Rat × Rat)) → RtmRunResult
  | [], latest, archive, mirror =>
    (match latest with
     | Option.some ts => ⟨Option.some ts.iso, 0, archive, mirror⟩
     | Option.none => ⟨file0, 0, archive, mirror⟩)
  | Except.error _ :: _, _, archive, mirror => ⟨file0, 1, archive, mirror⟩
  | Except.ok page :: rest, latest, archive, mirror =>
    rtmMainLoop file0 rest (pageMaxTs latest page)
      (write_rtm_lmp_raw archive page)
      (write_rtm_lmp_data mirror (page.filter scraperFilter))

/-- `scraper_rtm_lmp.main` on a given fetched stream, starting from
checkpoint-file content `file0` and empty sink deltas. -/
def rtmMain (stream : List (Except Unit (List Rec))) (file0 : Option String) :
    RtmRunResult :=
  rtmMainLoop file0 stream Option.none [] []

/-- `latest_timestamp` over a whole successful run. -/
def pagesMaxTs (pages : List (List Rec)) : Option DT :=
  pages.foldl pageMaxTs Option.none

/-! ### `scraper_rtm_lmp_realtime.py` — the CDR orchestrator (claim C10) -/

/-- The methods the `SQLiteArchive` class defines
(`src/sqlite_archive.py`). -/
def sqliteArchiveMethods : List String :=
  ["__init__", "_init_schema", "close", "write_rtm_lmp_api",
   "write_rtm_lmp_cdr", "write_dam_lmp", "get_record_count",
   "get_time_range", "get_last_time", "write_rtm_lmp_raw",
   "write_dam_lmp_raw"]

/-- The methods the `InfluxDBWriter` class defines
(`src/influxdb_writer.py`). -/
def influxDBWriterMethods : List String :=
  ["__init__", "close", "write_rtm_lmp_data",
   "_write_points_with_rate_limit", "write_dam_lmp_data",
   "get_last_timestamp"]

/-- Python attribute dispatch: calling `obj.name(...)` raises
`AttributeError` (modelled as `Except.error`) when the class defines no
such method; otherwise it runs the body. -/
def callMethod {α : Type} (methods : List String) (name : String)
    (body : Unit → α) : Except Unit α :=
  if methods.contains name then Except.ok (body ()) else Except.error ()

/-- `cst_to_utc` in `scraper_rtm_lmp_realtime.py`:
`cst_datetime + timedelta(hours=6)`. -/
def cst_to_utc (d : DT) : DT := d.addHours 6

/-- `scraper_rtm_lmp_realtime.main`, given the CDR fetch result
`(cdrTs, records)` and the mirror's `get_last_timestamp
("rtm_lmp_realtime")`.  The would-be bodies of the two sink methods the
scraper calls are passed as parameters (`sqliteCdrRawBody`,
`influxRealtimeBody`, each returning a written-record count) since the
repository defines neither.  Returns (exit code, records persisted to
SQLite, records persisted to InfluxDB). -/
def rtmRealtimeMain (cdrTs : Option DT) (records : List Rec)
    (influxLast : Option DT) (sqliteCdrRawBody influxRealtimeBody : Unit → Nat) :
    Int × Nat × Nat :=
  match cdrTs with
  | Option.none => (1, 0, 0)
  | Option.some ts =>
    if records.isEmpty then (1, 0, 0)
    else
      if (match influxLast with
          | Option.some lastT => dtLe (cst_to_utc ts) lastT
          | Option.none => false) then (0, 0, 0)
      else
        match callMethod sqliteArchiveMethods "write_rtm_lmp_cdr_raw"
            sqliteCdrRawBody with
        | Except.error _ => (1, 0, 0)
        | Except.ok n =>
          match callMethod influxDBWriterMethods "write_rtm_lmp_realtime"
              influxRealtimeBody with
          | Except.error _ => (1, n, 0)
          | Except.ok k => (0, n, k)

/-! ### Claim C2 — mirror ⊆ archive

The page loops of `scraper_rtm_lmp.main` and `scraper_dam_lmp.main`
write each full page to the SQLite archive and the allow-list-filtered
subset to the InfluxDB mirror. -/

/-- The sink effect of the RTM scraper's page loop, from empty stores. -/
def rtmScraperRun (pages : List (List Rec)) :
    List ((String × PyVal) × (Rat × Rat × Rat × Rat)) ×
    List ((DT × PyVal × PyVal) × (Rat × Rat × Rat × Rat)) :=
  pages.foldl (fun am page =>
    (write_rtm_lmp_raw am.1 page,
     write_rtm_lmp_data am.2 (page.filter scraperFilter))) ([], [])

/-- The sink effect of the DAM scraper's page loop, from empty stores. -/
def damScraperRun (pages : List (List Rec)) :
    List ((String × PyVal) × (PyVal × Rat)) ×
    List ((DT × PyVal × PyVal) × Rat) :=
  pages.foldl (fun am page =>
    (write_dam_lmp_raw am.1 page,
     write_dam_lmp_data am.2 (page.filter scraperFilter))) ([], [])

/-- A 5-minute-aligned RTM sample record (for the C2 witness). -/
def rtmSampleRec : Rec :=
  [("SCEDTimestamp", PyVal.str "2026-01-10T12:05:00"),
   ("SettlementPoint", PyVal.str "HB_NORTH"), ("LMP", PyVal.num 25)]

/-- A DAM sample record (for the C2 witness). -/
def damSampleRec : Rec :=
  [("DeliveryDate", PyVal.str "2026-01-10"), ("HourEnding", PyVal.str "01:00"),
   ("SettlementPoint", PyVal.str "HB_NORTH"),
   ("SettlementPointPrice", PyVal.num 20)]

/-! ### Theorems -/

theorem tlookup_upsert {K V : Type} [DecidableEq K] (k k' : K) (v : V)
    (t : List (K × V)) :
    tlookup k' (upsert k v t) = if k' = k then Option.some v else tlookup k' t := by
  induction t with
  | nil => simp [upsert, tlookup]
  | cons hd tl ih =>
    obtain ⟨a, b⟩ := hd
    by_cases hka : k = a
    · subst hka
      by_cases hk : k' = k <;> simp [upsert, tlookup, hk]
    · by_cases hk : k' = a
      · subst hk
        simp [upsert, tlookup, hka, Ne.symm hka]
      · by_cases hkk : k' = k
        · subst hkk
          simp [upsert, tlookup, hka, hk, ih]
        · simp [upsert, tlookup, hka, hk, hkk, ih]

theorem length_upsert {K V : Type} [DecidableEq K] (k : K) (v : V)
    (t : List (K × V)) :
    (upsert k v t).length =
      if (tlookup k t).isSome then t.length else t.length + 1 := by
  induction t with
  | nil => simp [upsert, tlookup]
  | cons hd tl ih =>
    obtain ⟨a, b⟩ := hd
    by_cases hka : k = a <;> simp [upsert, tlookup, hka, ih] <;> split <;> simp

theorem oor_idem {V : Type} (a b : Option V) : oor a (oor a b) = oor a b := by
  cases a <;> rfl

theorem writeBatch_nil {R K V : Type} [DecidableEq K]
    (f : R → Option (K × V)) (t : List (K × V)) : writeBatch f t [] = t := rfl

theorem writeBatch_cons {R K V : Type} [DecidableEq K]
    (f : R → Option (K × V)) (t : List (K × V)) (r : R) (rs : List R) :
    writeBatch f t (r :: rs) =
      writeBatch f
        (match f r with
         | Option.none => t
         | Option.some (k, v) => upsert k v t) rs := rfl

theorem writeBatch_append {R K V : Type} [DecidableEq K]
    (f : R → Option (K × V)) (t : List (K × V)) (rs rs' : List R) :
    writeBatch f t (rs ++ rs') = writeBatch f (writeBatch f t rs) rs' :=
  List.foldl_append ..

/-- Lookup after a batch write: the batch's own last write for the key,
if any, else the previous row. -/
theorem tlookup_writeBatch {R K V : Type} [DecidableEq K]
    (f : R → Option (K × V)) (rs : List R) (t : List (K × V)) (k : K) :
    tlookup k (writeBatch f t rs) =
      oor (tlookup k (writeBatch f [] rs)) (tlookup k t) := by
  induction rs generalizing t with
  | nil => simp [writeBatch, tlookup, oor]
  | cons r rs ih =>
    cases hfr : f r with
    | none =>
      simp only [writeBatch_cons, hfr]
      exact ih t
    | some kv =>
      obtain ⟨k', v⟩ := kv
      simp only [writeBatch_cons, hfr]
      rw [ih (upsert k' v t), ih (upsert k' v [])]
      cases hbl : tlookup k (writeBatch f [] rs) with
      | some w => simp [oor]
      | none =>
        simp only [oor]
        rw [tlookup_upsert, tlookup_upsert]
        by_cases hk : k = k' <;> simp [hk, oor, tlookup]

theorem tlookup_isSome_writeBatch_mono {R K V : Type} [DecidableEq K]
    (f : R → Option (K × V)) (rs : List R) (t : List (K × V)) (k : K)
    (h : (tlookup k t).isSome) : (tlookup k (writeBatch f t rs)).isSome := by
  rw [tlookup_writeBatch]
  cases tlookup k (writeBatch f [] rs) <;> simpa [oor]

theorem tlookup_isSome_of_mem {R K V : Type} [DecidableEq K]
    (f : R → Option (K × V)) {rs : List R} {r : R} {k : K} {v : V}
    (t : List (K × V)) (hm : r ∈ rs) (hf : f r = Option.some (k, v)) :
    (tlookup k (writeBatch f t rs)).isSome := by
  induction rs generalizing t with
  | nil => cases hm
  | cons a rs ih =>
    rcases List.mem_cons.mp hm with h | h
    · subst h
      rw [writeBatch_cons, hf]
      exact tlookup_isSome_writeBatch_mono _ _ _ _ (by simp [tlookup_upsert])
    · rw [writeBatch_cons]
      exact ih _ h

theorem length_writeBatch_stable {R K V : Type} [DecidableEq K]
    (f : R → Option (K × V)) (rs : List R) (u : List (K × V))
    (h : ∀ r ∈ rs, ∀ k v, f r = Option.some (k, v) → (tlookup k u).isSome) :
    (writeBatch f u rs).length = u.length := by
  induction rs generalizing u with
  | nil => rfl
  | cons r rs ih =>
    cases hfr : f r with
    | none =>
      rw [writeBatch_cons, hfr]
      exact ih u (fun r' hr' k v hf => h r' (List.mem_cons_of_mem _ hr') k v hf)
    | some kv =>
      obtain ⟨k, v⟩ := kv
      rw [writeBatch_cons, hfr]
      have hlen : (upsert k v u).length = u.length := by
        rw [length_upsert, if_pos (h r (List.mem_cons_self ..) k v hfr)]
      rw [ih (upsert k v u) ?_, hlen]
      intro r' hr' k' v' hf
      rcases Option.isSome_iff_exists.mp
          (h r' (List.mem_cons_of_mem _ hr') k' v' hf) with ⟨w, hw⟩
      by_cases hkk : k' = k <;>
        simp [tlookup_upsert, hkk, hw]

theorem tlookup_writeBatch_origin {R K V : Type} [DecidableEq K]
    (f : R → Option (K × V)) {rs : List R} {t : List (K × V)} {k : K} {v : V}
    (h : tlookup k (writeBatch f t rs) = Option.some v) :
    (∃ r ∈ rs, f r = Option.some (k, v)) ∨ tlookup k t = Option.some v := by
  induction rs generalizing t with
  | nil => exact Or.inr h
  | cons r rs ih =>
    rw [writeBatch_cons] at h
    rcases ih h with hex | hbase
    · exact Or.inl (by
        rcases hex with ⟨r', hr', hf⟩
        exact ⟨r', List.mem_cons_of_mem _ hr', hf⟩)
    · cases hfr : f r with
      | none =>
        rw [hfr] at hbase
        exact Or.inr hbase
      | some kv =>
        obtain ⟨k', v'⟩ := kv
        rw [hfr, tlookup_upsert] at hbase
        by_cases hk : k = k'
        · rw [if_pos hk] at hbase
          exact Or.inl ⟨r, List.mem_cons_self .., by
            rw [hfr, hk, Option.some_inj.mp hbase]⟩
        · rw [if_neg hk] at hbase
          exact Or.inr hbase

/-- Writing the same batch twice: the second write changes no row. -/
theorem writeBatch_idem_lookup {R K V : Type} [DecidableEq K]
    (f : R → Option (K × V)) (rs : List R) (t : List (K × V)) (k : K) :
    tlookup k (writeBatch f (writeBatch f t rs) rs) =
      tlookup k (writeBatch f t rs) := by
  rw [tlookup_writeBatch f rs (writeBatch f t rs), tlookup_writeBatch f rs t,
    oor_idem]

/-- Writing the same batch twice: the second write changes the row count
by nothing. -/
theorem writeBatch_idem_length {R K V : Type} [DecidableEq K]
    (f : R → Option (K × V)) (rs : List R) (t : List (K × V)) :
    (writeBatch f (writeBatch f t rs) rs).length =
      (writeBatch f t rs).length :=
  length_writeBatch_stable f rs _
    (fun r hr k v hf => tlookup_isSome_of_mem f t hr hf)

/-! ### Claim C1 — idempotent upsert writes -/

/-- C1: for every list of raw records and every archive table, calling
the corresponding write operation (`write_rtm_lmp_raw`,
`write_rtm_lmp_api`, `write_rtm_lmp_cdr`, `write_dam_lmp`,
`write_dam_lmp_raw`) twice in succession with the same list leaves the
table's row count and row contents after the second call equal to those
after the first call: a write whose key `(time, settlement_point)`
already exists replaces the prior row's non-key fields rather than
inserting a new row. -/
theorem write_twice_is_noop :
    (∀ t rs, (write_rtm_lmp_raw (write_rtm_lmp_raw t rs) rs).length =
        (write_rtm_lmp_raw t rs).length ∧
      ∀ k, tlookup k (write_rtm_lmp_raw (write_rtm_lmp_raw t rs) rs) =
        tlookup k (write_rtm_lmp_raw t rs)) ∧
    (∀ t rs, (write_rtm_lmp_api (write_rtm_lmp_api t rs) rs).length =
        (write_rtm_lmp_api t rs).length ∧
      ∀ k, tlookup k (write_rtm_lmp_api (write_rtm_lmp_api t rs) rs) =
        tlookup k (write_rtm_lmp_api t rs)) ∧
    (∀ t rs, (write_rtm_lmp_cdr (write_rtm_lmp_cdr t rs) rs).length =
        (write_rtm_lmp_cdr t rs).length ∧
      ∀ k, tlookup k (write_rtm_lmp_cdr (write_rtm_lmp_cdr t rs) rs) =
        tlookup k (write_rtm_lmp_cdr t rs)) ∧
    (∀ t rs, (write_dam_lmp (write_dam_lmp t rs) rs).length =
        (write_dam_lmp t rs).length ∧
      ∀ k, tlookup k (write_dam_lmp (write_dam_lmp t rs) rs) =
        tlookup k (write_dam_lmp t rs)) ∧
    (∀ t rs, (write_dam_lmp_raw (write_dam_lmp_raw t rs) rs).length =
        (write_dam_lmp_raw t rs).length ∧
      ∀ k, tlookup k (write_dam_lmp_raw (write_dam_lmp_raw t rs) rs) =
        tlookup k (write_dam_lmp_raw t rs)) :=
  ⟨fun t rs => ⟨writeBatch_idem_length _ _ _,
      fun k => writeBatch_idem_lookup _ _ _ _⟩,
   fun t rs => ⟨writeBatch_idem_length _ _ _,
      fun k => writeBatch_idem_lookup _ _ _ _⟩,
   fun t rs => ⟨writeBatch_idem_length _ _ _,
      fun k => writeBatch_idem_lookup _ _ _ _⟩,
   fun t rs => ⟨writeBatch_idem_length _ _ _,
      fun k => writeBatch_idem_lookup _ _ _ _⟩,
   fun t rs => ⟨writeBatch_idem_length _ _ _,
      fun k => writeBatch_idem_lookup _ _ _ _⟩⟩

/-! ### Claims C7, C8 — retry/backoff and 401 handling -/

theorem apiLoop_all429 (resp : Nat → Nat) (maxRetries : Nat) (tok : String)
    (h : ∀ i, resp i = 429) :
    ∀ fuel retries, retries ≤ maxRetries → maxRetries + 1 ≤ fuel + retries →
      ∀ tokVar delay reqs sleeps,
        (apiLoop resp maxRetries tok tokVar retries delay retries reqs sleeps
          fuel).outcome = ApiOutcome.rateLimitExceeded := by
  intro fuel
  induction fuel with
  | zero => intro retries h₁ h₂; omega
  | succ f ih =>
    intro retries h₁ h₂ tokVar delay reqs sleeps
    rw [apiLoop, if_pos (h retries)]
    by_cases hb : retries + 1 ≤ maxRetries
    · rw [if_pos hb]
      exact ih (retries + 1) hb (by omega) tokVar (delay * 2) _ _
    · rw [if_neg hb]

theorem apiLoop_all401 (resp : Nat → Nat) (maxRetries : Nat) (tok : String)
    (h : ∀ i, resp i = 401) :
    ∀ fuel retries, retries ≤ maxRetries → maxRetries + 1 ≤ fuel + retries →
      ∀ tokVar delay reqs sleeps,
        (apiLoop resp maxRetries tok tokVar retries delay retries reqs sleeps
          fuel).outcome = ApiOutcome.authFailed := by
  intro fuel
  induction fuel with
  | zero => intro retries h₁ h₂; omega
  | succ f ih =>
    intro retries h₁ h₂ tokVar delay reqs sleeps
    rw [apiLoop, if_neg (by rw [h retries]; omega), if_pos (h retries)]
    by_cases hb : retries + 1 ≤ maxRetries
    · rw [if_pos hb]
      exact ih (retries + 1) hb (by omega) Option.none delay _ _
    · rw [if_neg hb]

theorem apiLoop_401_run (resp : Nat → Nat) (maxRetries : Nat) (tok : String) :
    ∀ k fuel retries reqIdx, retries + k ≤ maxRetries → k + 1 ≤ fuel →
      (∀ i < k, resp (reqIdx + i) = 401) → resp (reqIdx + k) = 200 →
      ∀ tokVar delay reqs sleeps,
        apiLoop resp maxRetries tok tokVar retries delay reqIdx reqs sleeps fuel =
          ⟨ApiOutcome.success (reqIdx + k), reqs ++ List.replicate (k + 1) tok,
            sleeps, if k = 0 then tokVar else Option.none⟩ := by
  intro k
  induction k with
  | zero =>
    intro fuel retries reqIdx h₁ h₂ h401 h200 tokVar delay reqs sleeps
    obtain ⟨f, rfl⟩ : ∃ f, fuel = f + 1 := ⟨fuel - 1, by omega⟩
    rw [apiLoop, if_neg (by rw [show reqIdx + 0 = reqIdx from rfl] at h200; omega),
      if_neg (by rw [show reqIdx + 0 = reqIdx from rfl] at h200; omega),
      if_pos (by rw [show reqIdx + 0 = reqIdx from rfl] at h200; omega)]
    simp
  | succ k ih =>
    intro fuel retries reqIdx h₁ h₂ h401 h200 tokVar delay reqs sleeps
    obtain ⟨f, rfl⟩ : ∃ f, fuel = f + 1 := ⟨fuel - 1, by omega⟩
    have h0 : resp reqIdx = 401 := by
      have := h401 0 (Nat.succ_pos k)
      simpa using this
    rw [apiLoop, if_neg (by omega), if_pos h0, if_pos (by omega)]
    have h401' : ∀ i, i < k → resp (reqIdx + 1 + i) = 401 := by
      intro i hik
      have h := h401 (i + 1) (by omega)
      rwa [show reqIdx + (i + 1) = reqIdx + 1 + i by omega] at h
    have h200' : resp (reqIdx + 1 + k) = 200 := by
      rwa [show reqIdx + (k + 1) = reqIdx + 1 + k by omega] at h200
    rw [ih f (retries + 1) (reqIdx + 1) (by omega) (by omega) h401' h200'
      Option.none delay (reqs ++ [tok]) sleeps]
    have hrep : [tok] ++ List.replicate (k + 1) tok = List.replicate (k + 1 + 1) tok := by
      simp [List.replicate_succ]
    simp only [List.append_assoc, hrep]
    have : reqIdx + 1 + k = reqIdx + (k + 1) := by omega
    rw [this]
    simp

/-- C7: against a source answering HTTP 429 to the first two requests
and 200 to the third, `make_api_call` succeeds on the third request,
exactly 3 requests are made, and the inter-attempt delays are 1 second
then 2 seconds (backoff starts at 1s and doubles per retry); the default
retry cap is 3; and however long the run, `maxRetries + 1` consecutive
429 responses end the call with the fatal rate-limit `RuntimeError`
instead of being swallowed. -/
theorem ercot_retry_backoff :
    DEFAULT_MAX_RETRIES = 3 ∧
    (∀ tok, make_api_call (fun i => if i < 2 then 429 else 200)
        DEFAULT_MAX_RETRIES tok =
      ⟨ApiOutcome.success 2, [tok, tok, tok], [1, 2], Option.some tok⟩) ∧
    (∀ maxRetries tok resp, (∀ i, resp i = 429) →
      (make_api_call resp maxRetries tok).outcome =
        ApiOutcome.rateLimitExceeded) :=
  ⟨rfl, fun tok => rfl,
   fun maxRetries tok resp h =>
     apiLoop_all429 resp maxRetries tok h (maxRetries + 1) 0 (Nat.zero_le _)
       (by omega) (Option.some tok) INITIAL_DELAY_SECONDS [] []⟩

/-- Witness for C7's hypotheses: a source that always answers 429
exhausts the default 3 retries and raises the rate-limit error. -/
theorem ercot_retry_backoff_witness :
    (make_api_call (fun _ => 429) 3 "t0").outcome =
      ApiOutcome.rateLimitExceeded :=
  ercot_retry_backoff.2.2 3 "t0" (fun _ => 429) (fun _ => rfl)

/-- C8 counterexample: with `max_retries = 3`, a server answering 401 to
the first two requests and 200 to the third does *not* see the call
aborted at the second consecutive 401 — `make_api_call` keeps retrying
and succeeds on request 3 — and every retried request presents the same
original token `"t0"` (no fresh token is obtained inside the call; the
stored token is merely cleared). -/
theorem ercot_401_no_single_retry :
    make_api_call (fun i => if i < 2 then 401 else 200) 3 "t0" =
      ⟨ApiOutcome.success 2, ["t0", "t0", "t0"], [], Option.none⟩ ∧
    (make_api_call (fun i => if i < 2 then 401 else 200) 3 "t0").outcome ≠
      ApiOutcome.authFailed := by
  constructor
  · rfl
  · intro h
    simp [make_api_call, apiLoop, INITIAL_DELAY_SECONDS] at h

/-- C8 amended: on HTTP 401 the client clears its stored token
(`self.token = None`) and retries the same request — with the *same*
pre-built headers, hence the original token, never a fresh one — up to
`max_retries` times; only after `max_retries + 1` consecutive 401
responses does the call abort with the authentication failure.  With
`k ≤ max_retries` consecutive 401s followed by a 200, the call succeeds
after `k + 1` requests, all presenting the original token, and the
stored token ends cleared whenever a 401 occurred. -/
theorem ercot_401_retries_with_stale_token :
    (∀ maxRetries k tok, k ≤ maxRetries →
      make_api_call (fun i => if i < k then 401 else 200) maxRetries tok =
        ⟨ApiOutcome.success k, List.replicate (k + 1) tok, [],
          if k = 0 then Option.some tok else Option.none⟩) ∧
    (∀ maxRetries tok resp, (∀ i, resp i = 401) →
      (make_api_call resp maxRetries tok).outcome = ApiOutcome.authFailed) := by
  constructor
  · intro maxRetries k tok hk
    have := apiLoop_401_run (fun i => if i < k then 401 else 200) maxRetries tok
      k (maxRetries + 1) 0 0 (by omega) (by omega)
      (fun i hi => by simp [hi]) (by simp)
      (Option.some tok) INITIAL_DELAY_SECONDS [] []
    simpa [make_api_call] using this
  · intro maxRetries tok resp h
    exact apiLoop_all401 resp maxRetries tok h (maxRetries + 1) 0 (Nat.zero_le _)
      (by omega) (Option.some tok) INITIAL_DELAY_SECONDS [] []

/-- Witness for the amended C8: two consecutive 401s then a 200, with
the default cap 3, succeed on the third request with the original token
presented throughout, and an always-401 server ends in `authFailed`. -/
theorem ercot_401_retries_with_stale_token_witness :
    make_api_call (fun i => if i < 2 then 401 else 200) 3 "tk" =
      ⟨ApiOutcome.success 2, ["tk", "tk", "tk"], [], Option.none⟩ ∧
    (make_api_call (fun _ => 401) 3 "tk").outcome = ApiOutcome.authFailed := by
  constructor
  · have := ercot_401_retries_with_stale_token.1 3 2 "tk" (by omega)
    simpa using this
  · exact ercot_401_retries_with_stale_token.2 3 "tk" (fun _ => 401) (fun _ => rfl)

/-- C4: the DAM scraper's resume instant comes from the first available
source in order — the explicit `--start-date` flag (when supplied, the
archive max, mirror max and default lookback are all ignored, whatever
they hold), then the archive's max stored `dam_lmp` time, then the
mirror's most recent `dam_lmp` timestamp, then the fixed default of
7 days before now. -/
theorem dam_start_fallback_order :
    (∀ s, s ≠ "" → ∀ a a' m m' now now',
      resolveDamStart (Option.some s) a m now =
        resolveDamStart (Option.some s) a' m' now') ∧
    (∀ s d, s ≠ "" → fromisoformat s = Option.some d →
      ∀ a m now, resolveDamStart (Option.some s) a m now = Except.ok d) ∧
    (∀ t m now, resolveDamStart Option.none (Option.some t) m now = Except.ok t) ∧
    (∀ t now, resolveDamStart Option.none Option.none (Option.some t) now =
      Except.ok t) ∧
    (∀ now, resolveDamStart Option.none Option.none Option.none now =
      Except.ok (now.subDays 7)) := by
  refine ⟨fun s hs a a' m m' now now' => ?_,
    fun s d hs hparse a m now => ?_,
    fun t m now => rfl, fun t now => rfl, fun now => rfl⟩
  · simp [resolveDamStart, hs]
  · simp [resolveDamStart, hs, hparse]

/-- Witness for C4: a concrete supplied start date wins over populated
archive and mirror markers. -/
theorem dam_start_fallback_order_witness :
    resolveDamStart (Option.some "2026-01-01")
        (Option.some ⟨2026, 2, 1, 0, 0, 0, 0, Option.none⟩)
        (Option.some ⟨2026, 3, 1, 0, 0, 0, 0, Option.none⟩)
        ⟨2026, 4, 1, 0, 0, 0, 0, Option.none⟩ =
      Except.ok ⟨2026, 1, 1, 0, 0, 0, 0, Option.none⟩ :=
  dam_start_fallback_order.2.1 "2026-01-01" ⟨2026, 1, 1, 0, 0, 0, 0, Option.none⟩
    (by decide) (by decide) _ _ _

theorem rtmMainLoop_error (file0 : Option String) :
    ∀ (pre : List (List Rec)) post latest archive mirror,
      (rtmMainLoop file0 (pre.map Except.ok ++ Except.error () :: post)
        latest archive mirror).file = file0 ∧
      (rtmMainLoop file0 (pre.map Except.ok ++ Except.error () :: post)
        latest archive mirror).exitCode = 1 := by
  intro pre
  induction pre with
  | nil => intro post latest archive mirror; exact ⟨rfl, rfl⟩
  | cons page pre ih => intro post latest archive mirror; exact ih post _ _ _

theorem rtmMainLoop_ok (file0 : Option String) :
    ∀ (pages : List (List Rec)) latest archive mirror,
      (rtmMainLoop file0 (pages.map Except.ok) latest archive mirror).file =
        (match pages.foldl pageMaxTs latest with
         | Option.some ts => Option.some ts.iso
         | Option.none => file0) ∧
      (rtmMainLoop file0 (pages.map Except.ok) latest archive mirror).exitCode = 0 := by
  intro pages
  induction pages with
  | nil =>
    intro latest archive mirror
    cases latest <;> exact ⟨rfl, rfl⟩
  | cons page pages ih => intro latest archive mirror; exact ih _ _ _

/-- C3 counterexample: a run whose first page (one record, timestamp
`2026-01-10T12:00:00`) is durably written to the archive (row count 1)
and whose second fetch raises a fatal error, leaves the checkpoint file
untouched (`none`, not advanced to the written page's maximum
timestamp) and exits 1. -/
theorem rtm_checkpoint_not_advanced_on_partial_failure :
    (rtmMain [Except.ok [[("SCEDTimestamp", PyVal.str "2026-01-10T12:00:00"),
        ("SettlementPoint", PyVal.str "HB_NORTH"), ("LMP", PyVal.num 25)]],
      Except.error ()] Option.none).archive.length = 1 ∧
    (rtmMain [Except.ok [[("SCEDTimestamp", PyVal.str "2026-01-10T12:00:00"),
        ("SettlementPoint", PyVal.str "HB_NORTH"), ("LMP", PyVal.num 25)]],
      Except.error ()] Option.none).file = Option.none ∧
    (rtmMain [Except.ok [[("SCEDTimestamp", PyVal.str "2026-01-10T12:00:00"),
        ("SettlementPoint", PyVal.str "HB_NORTH"), ("LMP", PyVal.num 25)]],
      Except.error ()] Option.none).exitCode = 1 := by
  refine ⟨?_, rfl, rfl⟩
  rfl

/-- C3 amended: any run of the RTM API scraper in which the fetch (or a
sink write) raises a fatal error — whether before any page or after
some pages were durably written — leaves the checkpoint file untouched
and exits 1; the checkpoint is written only by a run that exhausts the
stream, and then it is set to the maximum observation timestamp seen
(or left untouched when no record carried a parseable timestamp). -/
theorem rtm_checkpoint_advance :
    (∀ (pre : List (List Rec)) post file0,
      (rtmMain (pre.map Except.ok ++ Except.error () :: post) file0).file = file0 ∧
      (rtmMain (pre.map Except.ok ++ Except.error () :: post) file0).exitCode = 1) ∧
    (∀ (pages : List (List Rec)) file0,
      (rtmMain (pages.map Except.ok) file0).file =
        (match pagesMaxTs pages with
         | Option.some ts => Option.some ts.iso
         | Option.none => file0) ∧
      (rtmMain (pages.map Except.ok) file0).exitCode = 0) :=
  ⟨fun pre post file0 => rtmMainLoop_error file0 pre post Option.none [] [],
   fun pages file0 => rtmMainLoop_ok file0 pages Option.none [] []⟩

/-- C10: the CDR scraper's write step always raises — it calls
`SQLiteArchive.write_rtm_lmp_cdr_raw` and
`InfluxDBWriter.write_rtm_lmp_realtime`, neither of which the repository
defines — so every run that parses a valid timestamp and a non-empty
record list whose UTC-converted timestamp is newer than the mirror's
most recent `rtm_lmp_realtime` timestamp exits 1 with zero records
persisted to either sink, whatever those methods would have done. -/
theorem cdr_realtime_write_always_raises :
    "write_rtm_lmp_cdr_raw" ∉ sqliteArchiveMethods ∧
    "write_rtm_lmp_realtime" ∉ influxDBWriterMethods ∧
    (∀ ts records influxLast b₁ b₂, records ≠ [] →
      (∀ lastT, influxLast = Option.some lastT →
        dtLe (cst_to_utc ts) lastT = false) →
      rtmRealtimeMain (Option.some ts) records influxLast b₁ b₂ = (1, 0, 0)) := by
  refine ⟨by decide, by decide, fun ts records influxLast b₁ b₂ hne hnew => ?_⟩
  cases influxLast with
  | none =>
    rw [rtmRealtimeMain, if_neg (by simpa using hne)]
    rfl
  | some lastT =>
    rw [rtmRealtimeMain, if_neg (by simpa using hne)]
    rw [if_neg (by simp [hnew lastT rfl])]
    rfl

/-- Witness for C10: a concrete fresh CDR snapshot (one record, mirror
empty) exits 1 and persists nothing. -/
theorem cdr_realtime_write_always_raises_witness :
    rtmRealtimeMain (Option.some ⟨2026, 2, 8, 9, 25, 16, 0, Option.none⟩)
        [[("settlementPoint", PyVal.str "HB_NORTH"), ("lmp", PyVal.num 25)]]
        Option.none (fun _ => 99) (fun _ => 98) = (1, 0, 0) :=
  cdr_realtime_write_always_raises.2.2 _ _ _ _ _ (List.cons_ne_nil _ _)
    (fun lastT h => by cases h)

/-! ### Claims C5, C6, C9 — per-record transform properties -/

theorem writeBatch_skip {R K V : Type} [DecidableEq K]
    (f : R → Option (K × V)) (t : List (K × V)) (rs₁ rs₂ : List R) (r : R)
    (h : f r = Option.none) :
    writeBatch f t (rs₁ ++ r :: rs₂) = writeBatch f t (rs₁ ++ rs₂) := by
  simp only [writeBatch_append, writeBatch_cons, h]

/-- C6 counterexample: the record timestamped `2026-01-10T12:03:47` is
stored by the mirror writer (`write_rtm_lmp_data`) at `12:03:47` itself,
not at the 5-minute floor `12:00:00`; only the archive writer floors. -/
theorem rtm_mirror_does_not_floor :
    (rtmMirrorToRow [("SCEDTimestamp", PyVal.str "2026-01-10T12:03:47"),
        ("SettlementPoint", PyVal.str "HB_NORTH"), ("LMP", PyVal.num 25)]).map
        (fun kv => kv.1.1) =
      Option.some ⟨2026, 1, 10, 12, 3, 47, 0, Option.none⟩ ∧
    (⟨2026, 1, 10, 12, 3, 47, 0, Option.none⟩ : DT) ≠
      DT.floor5 ⟨2026, 1, 10, 12, 3, 47, 0, Option.none⟩ ∧
    (rtmRawToRow [("SCEDTimestamp", PyVal.str "2026-01-10T12:03:47"),
        ("SettlementPoint", PyVal.str "HB_NORTH"), ("LMP", PyVal.num 25)]).map
        (fun kv => kv.1.1) =
      Option.some (DT.iso ⟨2026, 1, 10, 12, 0, 0, 0, Option.none⟩) :=
  ⟨rfl, by decide, rfl⟩

set_option maxHeartbeats 2000000 in
/-- C6 amended: the archive writer (`write_rtm_lmp_raw`) stores every
written real-time record at the 5-minute floor of its parsed timestamp
(`12:03:47 → 12:00:00`, `12:07:00 → 12:05:00`), but the mirror writer
(`write_rtm_lmp_data`) stores the parsed timestamp unchanged, with no
flooring. -/
theorem rtm_five_minute_floor :
    (∀ r k v, rtmRawToRow r = Option.some (k, v) →
      ∃ dt, rtmTs r = Option.some dt ∧ k.1 = (DT.floor5 dt).iso) ∧
    (∀ r k v, rtmMirrorToRow r = Option.some (k, v) →
      ∃ dt, rtmTs r = Option.some dt ∧ k.1 = dt) ∧
    (fromisoformat "2026-01-10T12:03:47").map DT.floor5 =
      fromisoformat "2026-01-10T12:00:00" ∧
    (fromisoformat "2026-01-10T12:07:00").map DT.floor5 =
      fromisoformat "2026-01-10T12:05:00" := by
  refine ⟨fun r k v h => ?_, fun r k v h => ?_, rfl, rfl⟩
  · rw [rtmRawToRow] at h
    cases hts : rtmTs r with
    | none => rw [hts] at h; exact Option.noConfusion h
    | some ts =>
      rw [hts] at h
      cases hA : floatOr0 (orChainNum r "LMP" "lmp") with
      | none => rw [hA] at h; exact Option.noConfusion h
      | some l =>
      cases hB : floatOr0 (orChainNum r "EnergyComponent" "energyComponent") with
      | none => rw [hA, hB] at h; exact Option.noConfusion h
      | some e =>
      cases hC : floatOr0 (orChainNum r "CongestionComponent" "congestionComponent") with
      | none => rw [hA, hB, hC] at h; exact Option.noConfusion h
      | some c =>
      cases hD : floatOr0 (orChainNum r "LossComponent" "lossComponent") with
      | none => rw [hA, hB, hC, hD] at h; exact Option.noConfusion h
      | some lo =>
        rw [hA, hB, hC, hD] at h
        cases h
        exact ⟨ts, rfl, rfl⟩
  · rw [rtmMirrorToRow] at h
    cases hts : rtmTs r with
    | none => rw [hts] at h; exact Option.noConfusion h
    | some ts =>
      rw [hts] at h
      cases hA : floatOr0 (orChainNum r "LMP" "lmp") with
      | none => rw [hA] at h; exact Option.noConfusion h
      | some l =>
      cases hB : floatOr0 (orChainNum r "EnergyComponent" "energyComponent") with
      | none => rw [hA, hB] at h; exact Option.noConfusion h
      | some e =>
      cases hC : floatOr0 (orChainNum r "CongestionComponent" "congestionComponent") with
      | none => rw [hA, hB, hC] at h; exact Option.noConfusion h
      | some c =>
      cases hD : floatOr0 (orChainNum r "LossComponent" "lossComponent") with
      | none => rw [hA, hB, hC, hD] at h; exact Option.noConfusion h
      | some lo =>
        rw [hA, hB, hC, hD] at h
        cases h
        exact ⟨ts, rfl, rfl⟩

/-- Witness for the amended C6: the `12:03:47` record is stored by the
archive at the floored key and by the mirror at the unfloored instant. -/
theorem rtm_five_minute_floor_witness :
    (∃ dt, rtmTs [("SCEDTimestamp", PyVal.str "2026-01-10T12:03:47"),
        ("SettlementPoint", PyVal.str "HB_NORTH"), ("LMP", PyVal.num 25)] =
        Option.some dt ∧
      ("2026-01-10T12:00:00", PyVal.str "HB_NORTH").1 = (DT.floor5 dt).iso) ∧
    (∃ dt, rtmTs [("SCEDTimestamp", PyVal.str "2026-01-10T12:03:47"),
        ("SettlementPoint", PyVal.str "HB_NORTH"), ("LMP", PyVal.num 25)] =
        Option.some dt ∧
      ((⟨2026, 1, 10, 12, 3, 47, 0, Option.none⟩ : DT), PyVal.str "HB_NORTH",
        PyVal.str "").1 = dt) :=
  ⟨rtm_five_minute_floor.1 _ ("2026-01-10T12:00:00", PyVal.str "HB_NORTH")
      (25, 0, 0, 0) rfl,
   rtm_five_minute_floor.2.1 _
      (⟨2026, 1, 10, 12, 3, 47, 0, Option.none⟩, PyVal.str "HB_NORTH",
        PyVal.str "") (25, 0, 0, 0) rfl⟩

/-- C5 counterexample: the day-ahead record `delivery_date=2026-01-10,
hour_ending="01:00"` is stored by the mirror writer
(`write_dam_lmp_data`) at the *local* instant `2026-01-10T00:00:00`,
with no UTC shift — the claim's fixed-offset shift (to
`2026-01-10T06:00:00`) is applied only by the archive writer
(`write_dam_lmp_raw`). -/
theorem dam_mirror_not_shifted_to_utc :
    (damMirrorToRow [("DeliveryDate", PyVal.str "2026-01-10"),
        ("HourEnding", PyVal.str "01:00"),
        ("SettlementPoint", PyVal.str "HB_NORTH"),
        ("SettlementPointPrice", PyVal.num 20)]).map (fun kv => kv.1.1) =
      Option.some ⟨2026, 1, 10, 0, 0, 0, 0, Option.none⟩ ∧
    (⟨2026, 1, 10, 0, 0, 0, 0, Option.none⟩ : DT) ≠
      DT.addHours ⟨2026, 1, 10, 0, 0, 0, 0, Option.none⟩ 6 ∧
    (damRawToRow [("DeliveryDate", PyVal.str "2026-01-10"),
        ("HourEnding", PyVal.str "01:00"),
        ("SettlementPoint", PyVal.str "HB_NORTH"),
        ("SettlementPointPrice", PyVal.num 20)]).map (fun kv => kv.1.1) =
      Option.some (DT.iso ⟨2026, 1, 10, 6, 0, 0, 0, Option.none⟩) :=
  ⟨rfl, by decide, rfl⟩

set_option maxHeartbeats 2000000 in
/-- C5 amended: every stored day-ahead observation sits at the local
instant `delivery_date + (hour_ending − 1) hours` (`"01:00"` maps to
`00:00:00`, `"24:00"` to `23:00:00`); the archive writer then shifts
that local instant to UTC by the feed's fixed offset (+6 hours) before
storage, while the mirror writer stores the local instant unshifted. -/
theorem dam_hour_ending_conversion :
    (∀ r k v, damRawToRow r = Option.some (k, v) →
      ∃ loc, damLocalTs r = Option.some loc ∧ k.1 = (DT.addHours loc 6).iso) ∧
    (∀ r k v, damMirrorToRow r = Option.some (k, v) →
      ∃ loc, damLocalTs r = Option.some loc ∧ k.1 = loc) ∧
    (∀ (d : DT) (hh : Nat), d.hour = 0 → 1 ≤ hh → hh ≤ 24 →
      ({ d with hour := hh - 1 } : DT) = DT.addHours d (hh - 1)) ∧
    damLocalTs [("DeliveryDate", PyVal.str "2026-01-10"),
        ("HourEnding", PyVal.str "01:00")] =
      Option.some ⟨2026, 1, 10, 0, 0, 0, 0, Option.none⟩ ∧
    damLocalTs [("DeliveryDate", PyVal.str "2026-01-10"),
        ("HourEnding", PyVal.str "24:00")] =
      Option.some ⟨2026, 1, 10, 23, 0, 0, 0, Option.none⟩ := by
  refine ⟨fun r k v h => ?_, fun r k v h => ?_, fun d hh h0 h1 h2 => ?_, rfl, rfl⟩
  · rw [damRawToRow] at h
    cases hloc : damLocalTs r with
    | none => rw [hloc] at h; exact Option.noConfusion h
    | some loc =>
      rw [hloc] at h
      cases hP : floatOr0 (orChainNum r "SettlementPointPrice" "settlementPointPrice") with
      | none => rw [hP] at h; exact Option.noConfusion h
      | some p =>
        rw [hP] at h
        cases h
        exact ⟨loc, rfl, rfl⟩
  · rw [damMirrorToRow] at h
    cases hloc : damLocalTs r with
    | none => rw [hloc] at h; exact Option.noConfusion h
    | some loc =>
      rw [hloc] at h
      cases hP : floatOr0 (orChainNum r "SettlementPointPrice" "settlementPointPrice") with
      | none => rw [hP] at h; exact Option.noConfusion h
      | some p =>
        rw [hP] at h
        cases h
        exact ⟨loc, rfl, rfl⟩
  · rw [DT.addHours, h0]
    rw [Nat.zero_add, Nat.mod_eq_of_lt (by omega), Nat.div_eq_of_lt (by omega)]
    rfl

/-- Witness for the amended C5: the `hour_ending="24:00"` record for
`2026-01-10` is stored by the archive at `2026-01-11T05:00:00` UTC and
by the mirror at local `2026-01-10T23:00:00`; and `23:00` is indeed the
delivery date plus `24 − 1` hours. -/
theorem dam_hour_ending_conversion_witness :
    (∃ loc, damLocalTs [("DeliveryDate", PyVal.str "2026-01-10"),
        ("HourEnding", PyVal.str "24:00"),
        ("SettlementPointPrice", PyVal.num 20)] = Option.some loc ∧
      ("2026-01-11T05:00:00", PyVal.str "").1 = (DT.addHours loc 6).iso) ∧
    (∃ loc, damLocalTs [("DeliveryDate", PyVal.str "2026-01-10"),
        ("HourEnding", PyVal.str "24:00"),
        ("SettlementPointPrice", PyVal.num 20)] = Option.some loc ∧
      ((⟨2026, 1, 10, 23, 0, 0, 0, Option.none⟩ : DT), PyVal.str "",
        PyVal.str "").1 = loc) ∧
    ({ (⟨2026, 1, 10, 0, 0, 0, 0, Option.none⟩ : DT) with hour := 24 - 1 } : DT) =
      DT.addHours ⟨2026, 1, 10, 0, 0, 0, 0, Option.none⟩ (24 - 1) :=
  ⟨dam_hour_ending_conversion.1 _ ("2026-01-11T05:00:00", PyVal.str "")
      (PyVal.str "", 20) rfl,
   dam_hour_ending_conversion.2.1 _
      (⟨2026, 1, 10, 23, 0, 0, 0, Option.none⟩, PyVal.str "", PyVal.str "")
      20 rfl,
   dam_hour_ending_conversion.2.2.1 ⟨2026, 1, 10, 0, 0, 0, 0, Option.none⟩ 24
      rfl (by omega) (by omega)⟩

/-- C9 counterexample: a record with a timestamp but *no* settlement
point field (either casing) is not skipped: both writers store it under
the empty-string settlement point — the archive row is written (and
counted as written), the mirror point is created. -/
theorem rtm_missing_sp_stored_not_skipped :
    rtmRawToRow [("SCEDTimestamp", PyVal.str "2026-01-10T12:00:00"),
        ("LMP", PyVal.num 25)] =
      Option.some (("2026-01-10T12:00:00", PyVal.str ""), (25, 0, 0, 0)) ∧
    rtmMirrorToRow [("SCEDTimestamp", PyVal.str "2026-01-10T12:00:00"),
        ("LMP", PyVal.num 25)] =
      Option.some ((⟨2026, 1, 10, 12, 0, 0, 0, Option.none⟩, PyVal.str "",
        PyVal.str ""), (25, 0, 0, 0)) ∧
    writeCount rtmRawToRow [[("SCEDTimestamp", PyVal.str "2026-01-10T12:00:00"),
        ("LMP", PyVal.num 25)]] = 1 :=
  ⟨rfl, rfl, rfl⟩

set_option maxHeartbeats 2000000 in
/-- C9 amended: the writers read every field through a
PascalCase-then-camelCase fallback chain, so both casings are accepted;
a record whose timestamp chain is falsy is skipped by both writers
without aborting the batch — excluded from the archive's written count,
and counted by the mirror writer's `skipped` counter — and a skipped
record leaves the rest of the batch's effect unchanged; but a record
missing only the settlement point is *not* skipped: it is stored under
the empty-string settlement point. -/
theorem rtm_field_fallback_and_skip :
    (∀ r, (Rec.get r "SCEDTimestamp").truthy = false →
      rtmTsStr r = Rec.get r "scedTimestamp") ∧
    (∀ r, (Rec.get r "SCEDTimestamp").truthy = true →
      rtmTsStr r = Rec.get r "SCEDTimestamp") ∧
    (∀ r, (rtmTsStr r).truthy = false →
      rtmRawToRow r = Option.none ∧ rtmMirrorToRow r = Option.none ∧
      writeCount rtmRawToRow [r] = 0 ∧ rtmMirrorSkipped [r] = 1) ∧
    (∀ t rs₁ rs₂ r, rtmRawToRow r = Option.none →
      write_rtm_lmp_raw t (rs₁ ++ r :: rs₂) = write_rtm_lmp_raw t (rs₁ ++ rs₂)) ∧
    (∀ t rs₁ rs₂ r, rtmMirrorToRow r = Option.none →
      write_rtm_lmp_data t (rs₁ ++ r :: rs₂) = write_rtm_lmp_data t (rs₁ ++ rs₂)) ∧
    (∀ r k v, rtmRawToRow r = Option.some (k, v) →
      (Rec.get r "SettlementPoint").truthy = false →
      (Rec.get r "settlementPoint").truthy = false → k.2 = PyVal.str "") ∧
    (∀ r k v, rtmMirrorToRow r = Option.some (k, v) →
      (Rec.get r "SettlementPoint").truthy = false →
      (Rec.get r "settlementPoint").truthy = false → k.2.1 = PyVal.str "") := by
  have hts_none : ∀ r, (rtmTsStr r).truthy = false → rtmTs r = Option.none := by
    intro r h
    rw [rtmTs]
    cases m : rtmTsStr r with
    | str s =>
      rw [m] at h
      simp only [PyVal.truthy] at h
      simp only [decide_eq_false_iff_not, Decidable.not_not] at h
      simp [h]
    | none => rfl
    | num q => rfl
    | dt d => rfl
  have hsp : ∀ r, (Rec.get r "SettlementPoint").truthy = false →
      (Rec.get r "settlementPoint").truthy = false →
      orChainStr r "SettlementPoint" "settlementPoint" = PyVal.str "" := by
    intro r h1 h2
    simp [orChainStr, pyOr, h1, h2]
  refine ⟨fun r h => by simp [rtmTsStr, pyOr, h],
    fun r h => by simp [rtmTsStr, pyOr, h],
    fun r h => ?_,
    fun t rs₁ rs₂ r h => writeBatch_skip _ _ _ _ _ h,
    fun t rs₁ rs₂ r h => writeBatch_skip _ _ _ _ _ h,
    fun r k v h h1 h2 => ?_, fun r k v h h1 h2 => ?_⟩
  · have h0 := hts_none r h
    refine ⟨by simp [rtmRawToRow, h0], by simp [rtmMirrorToRow, h0], ?_, ?_⟩
    · simp [writeCount, rtmRawToRow, h0]
    · simp [rtmMirrorSkipped, h]
  · rw [rtmRawToRow] at h
    cases hts : rtmTs r with
    | none => rw [hts] at h; exact Option.noConfusion h
    | some ts =>
      rw [hts] at h
      cases hA : floatOr0 (orChainNum r "LMP" "lmp") with
      | none => rw [hA] at h; exact Option.noConfusion h
      | some l =>
      cases hB : floatOr0 (orChainNum r "EnergyComponent" "energyComponent") with
      | none => rw [hA, hB] at h; exact Option.noConfusion h
      | some e =>
      cases hC : floatOr0 (orChainNum r "CongestionComponent" "congestionComponent") with
      | none => rw [hA, hB, hC] at h; exact Option.noConfusion h
      | some c =>
      cases hD : floatOr0 (orChainNum r "LossComponent" "lossComponent") with
      | none => rw [hA, hB, hC, hD] at h; exact Option.noConfusion h
      | some lo =>
        rw [hA, hB, hC, hD] at h
        cases h
        exact hsp r h1 h2
  · rw [rtmMirrorToRow] at h
    cases hts : rtmTs r with
    | none => rw [hts] at h; exact Option.noConfusion h
    | some ts =>
      rw [hts] at h
      cases hA : floatOr0 (orChainNum r "LMP" "lmp") with
      | none => rw [hA] at h; exact Option.noConfusion h
      | some l =>
      cases hB : floatOr0 (orChainNum r "EnergyComponent" "energyComponent") with
      | none => rw [hA, hB] at h; exact Option.noConfusion h
      | some e =>
      cases hC : floatOr0 (orChainNum r "CongestionComponent" "congestionComponent") with
      | none => rw [hA, hB, hC] at h; exact Option.noConfusion h
      | some c =>
      cases hD : floatOr0 (orChainNum r "LossComponent" "lossComponent") with
      | none => rw [hA, hB, hC, hD] at h; exact Option.noConfusion h
      | some lo =>
        rw [hA, hB, hC, hD] at h
        cases h
        exact hsp r h1 h2

/-- Witness for the amended C9: a record with only camelCase fields and
one with no timestamp exercise the fallback chain, the skip path, and
the stored-with-empty-settlement-point path. -/
theorem rtm_field_fallback_and_skip_witness :
    rtmTsStr [("scedTimestamp", PyVal.str "2026-01-10T12:00:00")] =
      Rec.get [("scedTimestamp", PyVal.str "2026-01-10T12:00:00")]
        "scedTimestamp" ∧
    (rtmRawToRow [("LMP", PyVal.num 25)] = Option.none ∧
      rtmMirrorToRow [("LMP", PyVal.num 25)] = Option.none ∧
      writeCount rtmRawToRow [[("LMP", PyVal.num 25)]] = 0 ∧
      rtmMirrorSkipped [[("LMP", PyVal.num 25)]] = 1) ∧
    (("2026-01-10T12:00:00", PyVal.str "") : String × PyVal).2 = PyVal.str "" :=
  ⟨rtm_field_fallback_and_skip.1 _ rfl,
   rtm_field_fallback_and_skip.2.2.1 _ rfl,
   rtm_field_fallback_and_skip.2.2.2.2.2.1
     [("SCEDTimestamp", PyVal.str "2026-01-10T12:00:00"), ("LMP", PyVal.num 25)]
     ("2026-01-10T12:00:00", PyVal.str "") (25, 0, 0, 0) rfl rfl rfl⟩

theorem scraperRun_fold {K₁ V₁ K₂ V₂ : Type} [DecidableEq K₁] [DecidableEq K₂]
    (f : Rec → Option (K₁ × V₁)) (g : Rec → Option (K₂ × V₂))
    (φ : Rec → Bool) :
    ∀ (pages : List (List Rec)) a m,
      pages.foldl (fun am page =>
        (writeBatch f am.1 page, writeBatch g am.2 (page.filter φ))) (a, m) =
      (writeBatch f a pages.join,
       writeBatch g m ((pages.map (fun p => p.filter φ)).join)) := by
  intro pages
  induction pages with
  | nil => intro a m; simp [List.join, writeBatch]
  | cons page pages ih =>
    intro a m
    show List.foldl _ (writeBatch f a page, writeBatch g m (page.filter φ)) pages = _
    rw [ih]
    simp [List.join_cons, writeBatch_append]

theorem mem_join_of_mem_filter_join {φ : Rec → Bool} {r : Rec}
    {pages : List (List Rec)}
    (h : r ∈ (pages.map (fun p => p.filter φ)).join) : r ∈ pages.join := by
  rcases List.mem_join.mp h with ⟨l, hl, hrl⟩
  rcases List.mem_map.mp hl with ⟨p, hp, rfl⟩
  exact List.mem_join.mpr ⟨p, hp, List.mem_of_mem_filter hrl⟩

/-- Bridge between the two RTM per-record transforms: a record the
mirror writer turns into a point at `(t, sp, ty)` with fields `v` is
turned by the archive writer into the row
`((floor5 t).isoformat, sp) ↦ v`. -/
theorem rtmRow_bridge (r : Rec) (t : DT) (sp ty : PyVal)
    (v : Rat × Rat × Rat × Rat)
    (h : rtmMirrorToRow r = Option.some ((t, sp, ty), v)) :
    rtmTs r = Option.some t ∧
    rtmRawToRow r = Option.some (((DT.floor5 t).iso, sp), v) := by
  rw [rtmMirrorToRow] at h
  cases hts : rtmTs r with
  | none => rw [hts] at h; exact Option.noConfusion h
  | some ts =>
    rw [hts] at h
    cases hA : floatOr0 (orChainNum r "LMP" "lmp") with
    | none => rw [hA] at h; exact Option.noConfusion h
    | some l =>
    cases hB : floatOr0 (orChainNum r "EnergyComponent" "energyComponent") with
    | none => rw [hA, hB] at h; exact Option.noConfusion h
    | some e =>
    cases hC : floatOr0 (orChainNum r "CongestionComponent" "congestionComponent") with
    | none => rw [hA, hB, hC] at h; exact Option.noConfusion h
    | some c =>
    cases hD : floatOr0 (orChainNum r "LossComponent" "lossComponent") with
    | none => rw [hA, hB, hC, hD] at h; exact Option.noConfusion h
    | some lo =>
      rw [hA, hB, hC, hD] at h
      cases h
      refine ⟨rfl, ?_⟩
      rw [rtmRawToRow, hts, hA, hB, hC, hD]

/-- Bridge between the two DAM per-record transforms: a record the
mirror writer stores at local `(t, sp, ty)` with price `p` is stored by
the archive writer as `((t + 6h).isoformat, sp) ↦ (ty, p)`. -/
theorem damRow_bridge (r : Rec) (t : DT) (sp ty : PyVal) (p : Rat)
    (h : damMirrorToRow r = Option.some ((t, sp, ty), p)) :
    damLocalTs r = Option.some t ∧
    damRawToRow r = Option.some (((DT.addHours t 6).iso, sp), (ty, p)) := by
  rw [damMirrorToRow] at h
  cases hloc : damLocalTs r with
  | none => rw [hloc] at h; exact Option.noConfusion h
  | some loc =>
    rw [hloc] at h
    cases hP : floatOr0 (orChainNum r "SettlementPointPrice" "settlementPointPrice") with
    | none => rw [hP] at h; exact Option.noConfusion h
    | some q =>
      rw [hP] at h
      cases h
      refine ⟨rfl, ?_⟩
      rw [damRawToRow, hloc, hP]

/-- C2 counterexample: one RTM page with a single allow-listed record
timestamped `2026-01-10T12:03:47`.  The mirror stores it at that very
instant, but the archive stores it at the floored instant, so the
mirror's instant is *absent* from the archive: the mirror is not a
pointwise subset of the archive at equal instants. -/
theorem mirror_instant_absent_from_archive :
    inAllowList (PyVal.str "HB_NORTH") = true ∧
    tlookup (⟨2026, 1, 10, 12, 3, 47, 0, Option.none⟩, PyVal.str "HB_NORTH",
        PyVal.str "")
      (rtmScraperRun [[[("SCEDTimestamp", PyVal.str "2026-01-10T12:03:47"),
        ("SettlementPoint", PyVal.str "HB_NORTH"),
        ("LMP", PyVal.num 25)]]]).2 = Option.some (25, 0, 0, 0) ∧
    tlookup ((⟨2026, 1, 10, 12, 3, 47, 0, Option.none⟩ : DT).iso,
        PyVal.str "HB_NORTH")
      (rtmScraperRun [[[("SCEDTimestamp", PyVal.str "2026-01-10T12:03:47"),
        ("SettlementPoint", PyVal.str "HB_NORTH"),
        ("LMP", PyVal.num 25)]]]).1 = Option.none :=
  ⟨rfl, rfl, rfl⟩

/-- C2 amended: after an RTM run in which every record's parsed
timestamp is already 5-minute-aligned (flooring is the identity there)
and any two records mapping to the same archive key carry equal stored
values, every mirror point `(t, sp, ty)` with `sp` in the allow-list
has an archive row at the same instant `t` with an equal price; after a
DAM run with the same key-functional-dependency condition, every mirror
point at local instant `t` has its archive row at `t + 6h` (the UTC
shift) with an equal price. -/
theorem mirror_subset_archive :
    (∀ pages : List (List Rec),
      (∀ r ∈ pages.join, ∀ dt, rtmTs r = Option.some dt → DT.floor5 dt = dt) →
      (∀ r ∈ pages.join, ∀ r' ∈ pages.join, ∀ k v v',
        rtmRawToRow r = Option.some (k, v) →
        rtmRawToRow r' = Option.some (k, v') → v = v') →
      ∀ t sp ty v, inAllowList sp = true →
        tlookup (t, sp, ty) (rtmScraperRun pages).2 = Option.some v →
        ∃ w, tlookup (t.iso, sp) (rtmScraperRun pages).1 = Option.some w ∧
          w.1 = v.1) ∧
    (∀ pages : List (List Rec),
      (∀ r ∈ pages.join, ∀ r' ∈ pages.join, ∀ k v v',
        damRawToRow r = Option.some (k, v) →
        damRawToRow r' = Option.some (k, v') → v = v') →
      ∀ t sp ty p, inAllowList sp = true →
        tlookup (t, sp, ty) (damScraperRun pages).2 = Option.some p →
        ∃ w, tlookup ((DT.addHours t 6).iso, sp) (damScraperRun pages).1 =
          Option.some w ∧ w.2 = p) := by
  constructor
  · intro pages hAlign hFD t sp ty v _hsp hm
    have hrun := scraperRun_fold rtmRawToRow rtmMirrorToRow scraperFilter
      pages [] []
    have h1 : (rtmScraperRun pages).1 = writeBatch rtmRawToRow [] pages.join :=
      congrArg Prod.fst hrun
    have h2 : (rtmScraperRun pages).2 =
        writeBatch rtmMirrorToRow []
          ((pages.map (fun p => p.filter scraperFilter)).join) :=
      congrArg Prod.snd hrun
    rw [h2] at hm
    rcases tlookup_writeBatch_origin rtmMirrorToRow hm with ⟨r, hrF, hrow⟩ | hnil
    · have hrJ : r ∈ pages.join := mem_join_of_mem_filter_join hrF
      obtain ⟨hts, hraw⟩ := rtmRow_bridge r t sp ty v hrow
      rw [hAlign r hrJ t hts] at hraw
      have hsome := tlookup_isSome_of_mem rtmRawToRow
        ([] : List ((String × PyVal) × (Rat × Rat × Rat × Rat))) hrJ hraw
      rcases Option.isSome_iff_exists.mp hsome with ⟨w, hw⟩
      refine ⟨w, by rw [h1]; exact hw, ?_⟩
      rcases tlookup_writeBatch_origin rtmRawToRow hw with ⟨r'', hr'', hrow''⟩ | hnil
      · rw [← hFD r hrJ r'' hr'' (t.iso, sp) v w hraw hrow'']
      · exact Option.noConfusion hnil
    · exact Option.noConfusion hnil
  · intro pages hFD t sp ty p _hsp hm
    have hrun := scraperRun_fold damRawToRow damMirrorToRow scraperFilter
      pages [] []
    have h1 : (damScraperRun pages).1 = writeBatch damRawToRow [] pages.join :=
      congrArg Prod.fst hrun
    have h2 : (damScraperRun pages).2 =
        writeBatch damMirrorToRow []
          ((pages.map (fun p => p.filter scraperFilter)).join) :=
      congrArg Prod.snd hrun
    rw [h2] at hm
    rcases tlookup_writeBatch_origin damMirrorToRow hm with ⟨r, hrF, hrow⟩ | hnil
    · have hrJ : r ∈ pages.join := mem_join_of_mem_filter_join hrF
      obtain ⟨hloc, hraw⟩ := damRow_bridge r t sp ty p hrow
      have hsome := tlookup_isSome_of_mem damRawToRow
        ([] : List ((String × PyVal) × (PyVal × Rat))) hrJ hraw
      rcases Option.isSome_iff_exists.mp hsome with ⟨w, hw⟩
      refine ⟨w, by rw [h1]; exact hw, ?_⟩
      rcases tlookup_writeBatch_origin damRawToRow hw with ⟨r'', hr'', hrow''⟩ | hnil
      · rw [← hFD r hrJ r'' hr'' ((DT.addHours t 6).iso, sp) (ty, p) w hraw hrow'']
      · exact Option.noConfusion hnil
    · exact Option.noConfusion hnil

/-- Witness for the amended C2: a one-page aligned RTM run and a
one-page DAM run both satisfy the hypotheses, and the archive rows exist
at the stated instants with the mirror's prices. -/
theorem mirror_subset_archive_witness :
    (∃ w, tlookup ((⟨2026, 1, 10, 12, 5, 0, 0, Option.none⟩ : DT).iso,
        PyVal.str "HB_NORTH") (rtmScraperRun [[rtmSampleRec]]).1 =
        Option.some w ∧ w.1 = (25 : Rat)) ∧
    (∃ w, tlookup ((DT.addHours ⟨2026, 1, 10, 0, 0, 0, 0, Option.none⟩ 6).iso,
        PyVal.str "HB_NORTH") (damScraperRun [[damSampleRec]]).1 =
        Option.some w ∧ w.2 = (20 : Rat)) := by
  constructor
  · refine mirror_subset_archive.1 [[rtmSampleRec]] ?_ ?_
      ⟨2026, 1, 10, 12, 5, 0, 0, Option.none⟩ (PyVal.str "HB_NORTH")
      (PyVal.str "") (25, 0, 0, 0) rfl rfl
    · intro r hr dt hdt
      have hre : r = rtmSampleRec := by simpa [List.join] using hr
      subst hre
      rw [show rtmTs rtmSampleRec =
        Option.some ⟨2026, 1, 10, 12, 5, 0, 0, Option.none⟩ from rfl] at hdt
      cases hdt
      rfl
    · intro r hr r' hr' k v v' h1 h2
      have hre : r = rtmSampleRec := by simpa [List.join] using hr
      have hre' : r' = rtmSampleRec := by simpa [List.join] using hr'
      subst hre; subst hre'
      rw [show rtmRawToRow rtmSampleRec =
        Option.some (("2026-01-10T12:05:00", PyVal.str "HB_NORTH"),
          ((25 : Rat), (0 : Rat), (0 : Rat), (0 : Rat))) from rfl] at h1 h2
      cases h1
      cases h2
      rfl
  · refine mirror_subset_archive.2 [[damSampleRec]] ?_
      ⟨2026, 1, 10, 0, 0, 0, 0, Option.none⟩ (PyVal.str "HB_NORTH")
      (PyVal.str "") 20 rfl rfl
    · intro r hr r' hr' k v v' h1 h2
      have hre : r = damSampleRec := by simpa [List.join] using hr
      have hre' : r' = damSampleRec := by simpa [List.join] using hr'
      subst hre; subst hre'
      rw [show damRawToRow damSampleRec =
        Option.some (("2026-01-10T06:00:00", PyVal.str "HB_NORTH"),
          (PyVal.str "", (20 : Rat))) from rfl] at h1 h2
      cases h1
      cases h2
      rfl
